import Mathlib

/-!
Shallow embedding of the SwiftCart storefront (src/src/App.tsx): the commerce
state engine (cart aggregate, pricing engine, coupon registry, order ledger),
together with theorems settling the specification claims. Currency values are
JavaScript numbers holding exact decimal results in the scenarios of interest;
they are embedded as rationals. Quantities and deltas are integers.
-/

namespace SwiftCart

/-- A catalog product (interface Product in App.tsx). -/
structure Product where
  id : Nat
  name : String
  price : Rat
  image : String
  category : String
deriving DecidableEq, Repr

/-- A cart line (interface CartItem extends Product with quantity). -/
structure CartItem where
  id : Nat
  name : String
  price : Rat
  image : String
  category : String
  quantity : Int
deriving DecidableEq, Repr

/-- Order status (the union type in interface Order). -/
inductive OrderStatus where
  | Pending
  | Shipped
  | Delivered
  | Returned
deriving DecidableEq, Repr

/-- A placed order (interface Order in App.tsx). -/
structure Order where
  id : String
  date : String
  items : List CartItem
  total : Rat
  status : OrderStatus
deriving DecidableEq, Repr

/-- A registered coupon (interface Coupon in App.tsx). -/
structure Coupon where
  code : String
  discount : Rat
  isActive : Bool
deriving DecidableEq, Repr

/-- JavaScript String.prototype.toUpperCase, restricted to the ASCII range
used by the coupon codes in this application: upper-case every character. -/
def toUpperCase (s : String) : String :=
  String.mk (s.data.map Char.toUpper)

/-- Conversion of a Product to a CartItem with the given quantity
(the spread in addToCart: \x7b ...product, quantity: 1 \x7d). -/
def Product.toCartItem (p : Product) (quantity : Int) : CartItem :=
  { id := p.id, name := p.name, price := p.price, image := p.image,
    category := p.category, quantity := quantity }

/-- The whole commerce-relevant component state of App (the useState cells
that the core operations read or write). -/
structure AppState where
  products : List Product
  cart : List CartItem
  wishlist : List Nat
  orders : List Order
  coupons : List Coupon
  appliedCoupon : Option Coupon
  couponInput : String
  couponError : String
  revenue : Rat
  totalOrders : Nat
deriving DecidableEq, Repr

/-- INITIAL_PRODUCTS from App.tsx. -/
def INITIAL_PRODUCTS : List Product :=
  [ { id := 1, name := "Premium Wireless Headphones", price := 12999,
      image := "https://picsum.photos/seed/headphones/400/400", category := "Electronics" },
    { id := 2, name := "Minimalist Leather Watch", price := 4500,
      image := "https://picsum.photos/seed/watch/400/400", category := "Accessories" },
    { id := 3, name := "Smart Fitness Tracker", price := 2999,
      image := "https://picsum.photos/seed/tracker/400/400", category := "Electronics" },
    { id := 4, name := "Ergonomic Coffee Mug", price := 899,
      image := "https://picsum.photos/seed/mug/400/400", category := "Home" },
    { id := 5, name := "Organic Cotton T-Shirt", price := 1200,
      image := "https://picsum.photos/seed/tshirt/400/400", category := "Apparel" } ]

/-- The initial component state: every useState initial value. -/
def initState : AppState :=
  { products := INITIAL_PRODUCTS
    cart := []
    wishlist := []
    orders := []
    coupons := [{ code := "WELCOME10", discount := 10, isActive := true }]
    appliedCoupon := none
    couponInput := ""
    couponError := ""
    revenue := 0
    totalOrders := 0 }

/-- Derived value subtotal: cart.reduce((sum, item) => sum + item.price * item.quantity, 0). -/
def subtotal (cart : List CartItem) : Rat :=
  cart.foldl (fun sum item => sum + item.price * (item.quantity : Rat)) 0

/-- Derived value discountAmount: 0 without an applied coupon, otherwise
(subtotal * appliedCoupon.discount) / 100. -/
def discountAmount (cart : List CartItem) (appliedCoupon : Option Coupon) : Rat :=
  match appliedCoupon with
  | none => 0
  | some c => (subtotal cart * c.discount) / 100

/-- Derived value cartTotal = subtotal - discountAmount. -/
def cartTotal (cart : List CartItem) (appliedCoupon : Option Coupon) : Rat :=
  subtotal cart - discountAmount cart appliedCoupon

/-- Derived value cartCount: cart.reduce((sum, item) => sum + item.quantity, 0). -/
def cartCount (cart : List CartItem) : Int :=
  cart.foldl (fun sum item => sum + item.quantity) 0

/-- The cart update performed by addToCart (the setCart callback; the
transient bounce flag is presentation-only and carries no state contract). -/
def addToCart (cart : List CartItem) (product : Product) : List CartItem :=
  if cart.any (fun item => item.id == product.id) then
    cart.map (fun item =>
      if item.id == product.id then { item with quantity := item.quantity + 1 } else item)
  else
    cart ++ [product.toCartItem 1]

/-- The cart update performed by removeFromCart: filter out the matching id. -/
def removeFromCart (cart : List CartItem) (productId : Nat) : List CartItem :=
  cart.filter (fun item => item.id != productId)

/-- The cart update performed by updateQuantity: on the matching line the new
quantity is Math.max(1, item.quantity + delta); other lines are unchanged. -/
def updateQuantity (cart : List CartItem) (productId : Nat) (delta : Int) : List CartItem :=
  cart.map (fun item =>
    if item.id == productId then { item with quantity := max 1 (item.quantity + delta) }
    else item)

/-- checkout from App.tsx. The order id comes from Math.random and the date
from the clock; both are passed as parameters. An empty cart returns early;
otherwise the new order (status Pending, total = cartTotal, items a copy of
the cart) is prepended, revenue and totalOrders are bumped, the cart cleared.
The success banner and drawer flags are presentation-only. -/
def checkout (s : AppState) (oid date : String) : AppState :=
  if s.cart.length = 0 then s
  else
    let orderTotal := cartTotal s.cart s.appliedCoupon
    let newOrder : Order :=
      { id := oid, date := date, items := s.cart, total := orderTotal,
        status := OrderStatus.Pending }
    { s with
      orders := newOrder :: s.orders
      revenue := s.revenue + orderTotal
      totalOrders := s.totalOrders + 1
      cart := [] }

/-- updateOrderStatus from App.tsx: set the status of the order with the given
id; used unguarded by the admin status select. -/
def updateOrderStatus (s : AppState) (orderId : String) (newStatus : OrderStatus) : AppState :=
  { s with
    orders := s.orders.map (fun order =>
      if order.id == orderId then { order with status := newStatus } else order) }

/-- The customer-facing Return action: the My Orders view renders the Return
button for an order only when order.status === Delivered, and its click
handler calls updateOrderStatus(order.id, Returned). -/
def customerReturn (s : AppState) (orderId : String) : AppState :=
  if s.orders.any (fun order =>
      order.id == orderId && decide (order.status = OrderStatus.Delivered)) then
    updateOrderStatus s orderId OrderStatus.Returned
  else s

/-- handleApplyCoupon from App.tsx: find a coupon whose upper-cased code equals
the upper-cased input and which is active; on success store it as the applied
coupon and clear the error and the input, on failure set the error message. -/
def handleApplyCoupon (s : AppState) : AppState :=
  match s.coupons.find? (fun c =>
      toUpperCase c.code == toUpperCase s.couponInput && c.isActive) with
  | some coupon =>
    { s with appliedCoupon := some coupon, couponError := "", couponInput := "" }
  | none =>
    { s with couponError := "Invalid or inactive coupon code" }

/-- The inline click handler on the applied-coupon chip: setAppliedCoupon(null). -/
def removeAppliedCoupon (s : AppState) : AppState :=
  { s with appliedCoupon := none }

/-- Typing into the coupon input field: setCouponInput. -/
def setCouponInput (s : AppState) (input : String) : AppState :=
  { s with couponInput := input }

/-- handleAddCoupon from App.tsx (the successful submission path; the guard
that rejects empty form fields is form glue): append a coupon with the code
upper-cased and active := true. No duplicate-code check is performed. -/
def handleAddCoupon (s : AppState) (code : String) (discount : Rat) : AppState :=
  { s with coupons := s.coupons ++ [{ code := toUpperCase code,
                                      discount := discount, isActive := true }] }

/-- toggleCouponStatus from App.tsx: flip isActive on the matching code. -/
def toggleCouponStatus (s : AppState) (code : String) : AppState :=
  { s with coupons := s.coupons.map (fun c =>
      if c.code == code then { c with isActive := !c.isActive } else c) }

/-- deleteCoupon from App.tsx: remove the matching code. -/
def deleteCoupon (s : AppState) (code : String) : AppState :=
  { s with coupons := s.coupons.filter (fun c => c.code != code) }

/-- toggleWishlist from App.tsx. -/
def toggleWishlist (s : AppState) (productId : Nat) : AppState :=
  { s with wishlist :=
      if s.wishlist.contains productId then s.wishlist.filter (fun id => id != productId)
      else s.wishlist ++ [productId] }

/-- handleAddProduct from App.tsx (successful submission path; empty-field
guards and default image are form glue): prepend the new product. -/
def handleAddProduct (s : AppState) (p : Product) : AppState :=
  { s with products := p :: s.products }

/-- deleteProduct from App.tsx. -/
def deleteProduct (s : AppState) (productId : Nat) : AppState :=
  { s with products := s.products.filter (fun p => p.id != productId) }

/-- The external actions that mutate commerce state, one per event handler. -/
inductive Action where
  | addToCart : Product → Action
  | removeFromCart : Nat → Action
  | updateQuantity : Nat → Int → Action
  | checkout : String → String → Action
  | adminSetStatus : String → OrderStatus → Action
  | customerReturn : String → Action
  | setCouponInput : String → Action
  | applyCoupon : Action
  | removeCoupon : Action
  | registerCoupon : String → Rat → Action
  | toggleCouponStatus : String → Action
  | deleteCoupon : String → Action
  | toggleWishlist : Nat → Action
  | addProduct : Product → Action
  | deleteProduct : Nat → Action
deriving DecidableEq, Repr

/-- One step of the state machine: dispatch an action to its handler. -/
def step (s : AppState) : Action → AppState
  | Action.addToCart p => { s with cart := addToCart s.cart p }
  | Action.removeFromCart pid => { s with cart := removeFromCart s.cart pid }
  | Action.updateQuantity pid delta => { s with cart := updateQuantity s.cart pid delta }
  | Action.checkout oid date => checkout s oid date
  | Action.adminSetStatus oid st => updateOrderStatus s oid st
  | Action.customerReturn oid => customerReturn s oid
  | Action.setCouponInput input => setCouponInput s input
  | Action.applyCoupon => handleApplyCoupon s
  | Action.removeCoupon => removeAppliedCoupon s
  | Action.registerCoupon code discount => handleAddCoupon s code discount
  | Action.toggleCouponStatus code => toggleCouponStatus s code
  | Action.deleteCoupon code => deleteCoupon s code
  | Action.toggleWishlist pid => toggleWishlist s pid
  | Action.addProduct p => handleAddProduct s p
  | Action.deleteProduct pid => deleteProduct s pid

/-- Run a list of actions from a state. -/
def run (s : AppState) (acts : List Action) : AppState :=
  acts.foldl step s

/-- The first catalog product, used for concrete scenarios. -/
def prod1 : Product :=
  { id := 1, name := "Premium Wireless Headphones", price := 12999,
    image := "https://picsum.photos/seed/headphones/400/400", category := "Electronics" }

/-! ## Helper lemmas -/

/-- A left fold that only adds contributions equals the initial value plus the
sum of the mapped list. -/
lemma foldl_add_eq_sum (f : CartItem → Rat) (l : List CartItem) (init : Rat) :
    l.foldl (fun sum i => sum + f i) init = init + (l.map f).sum := by
  induction l generalizing init with
  | nil => simp
  | cons x xs ih => simp only [List.foldl_cons, List.map_cons, List.sum_cons, ih]; ring

/-- subtotal as a sum over the mapped cart. -/
lemma subtotal_eq_sum (cart : List CartItem) :
    subtotal cart = (cart.map (fun i => i.price * (i.quantity : Rat))).sum := by
  simpa using foldl_add_eq_sum (fun i => i.price * (i.quantity : Rat)) cart 0

/-- Mapping a guarded rewrite over lines none of which match the id is the
identity. -/
lemma map_guarded_noop (cart : List CartItem) (pid : Nat) (f : CartItem → CartItem)
    (h : ∀ i ∈ cart, i.id ≠ pid) :
    cart.map (fun j => if j.id == pid then f j else j) = cart := by
  induction cart with
  | nil => rfl
  | cons x xs ih =>
    have hx : (x.id == pid) = false := by
      simpa using h x (List.mem_cons_self x xs)
    have hxs := ih (fun i hi => h i (List.mem_cons_of_mem x hi))
    rw [List.map_cons, if_neg (by simp [hx]), hxs]

/-! ## Claim theorems -/

/-- C3: checkout invoked on an empty cart is a no-op, not an error: the order
ledger and every other component of the state are left unchanged. -/
theorem checkout_empty_cart_noop (s : AppState) (oid date : String) (h : s.cart = []) :
    checkout s oid date = s := by
  simp [checkout, h]

/-- Witness for C3 at the initial state. -/
theorem checkout_empty_cart_noop_witness :
    checkout initState "ORD-1" "2026-10-12" = initState :=
  checkout_empty_cart_noop initState "ORD-1" "2026-10-12" rfl

/-- C4: addToCart appends a fresh line with quantity 1 after the existing
lines when no line carries the product id, increments the matching line by 1
when one exists (preserving the number of lines), and adding the same product
twice to a cart without it yields a single line of quantity 2, never two. -/
theorem addToCart_spec (cart : List CartItem) (p : Product) :
    (cart.all (fun i => i.id != p.id) = true →
      addToCart cart p = cart ++ [p.toCartItem 1]
      ∧ addToCart (addToCart cart p) p = cart ++ [p.toCartItem 2])
    ∧ (∀ i ∈ cart, i.id = p.id →
      addToCart cart p =
        cart.map (fun j => if j.id == p.id then { j with quantity := j.quantity + 1 } else j)
      ∧ (addToCart cart p).length = cart.length) := by
  constructor
  · intro h
    have hne : ∀ i ∈ cart, i.id ≠ p.id := by
      intro i hi
      have := List.all_eq_true.mp h i hi
      simpa using this
    have hnone : cart.any (fun i => i.id == p.id) = false := by
      simp only [List.any_eq_false]
      intro i hi
      simpa using hne i hi
    have h1 : addToCart cart p = cart ++ [p.toCartItem 1] := by
      simp [addToCart, hnone]
    refine ⟨h1, ?_⟩
    rw [h1]
    have hany : ((cart ++ [p.toCartItem 1]).any (fun i => i.id == p.id)) = true := by
      simp [List.any_append, Product.toCartItem]
    simp only [addToCart, hany, if_true, List.map_append]
    rw [map_guarded_noop cart p.id _ hne]
    simp [Product.toCartItem]
  · intro i hi hid
    have hany : cart.any (fun j => j.id == p.id) = true := by
      simp only [List.any_eq_true]
      exact ⟨i, hi, by simpa using hid⟩
    constructor
    · simp [addToCart, hany]
    · simp [addToCart, hany]

/-- Witness for C4: adding the first catalog product twice to the empty cart
yields exactly one line with quantity 2. -/
theorem addToCart_spec_witness :
    addToCart (addToCart [] prod1) prod1 = [prod1.toCartItem 2] :=
  ((addToCart_spec [] prod1).1 (by decide)).2

/-- C5: updateQuantity is a no-op when no line matches the id, rewrites the
matching line to quantity max(1, quantity + delta) and leaves the others
untouched (position by position), never drives a touched quantity below 1,
and on a line of quantity 3 a delta of -100 yields quantity 1. -/
theorem updateQuantity_spec (cart : List CartItem) (pid : Nat) (delta : Int) :
    (cart.all (fun i => i.id != pid) = true → updateQuantity cart pid delta = cart)
    ∧ (∀ k : Nat, (updateQuantity cart pid delta)[k]? =
        cart[k]?.map (fun i =>
          if i.id = pid then { i with quantity := max 1 (i.quantity + delta) } else i))
    ∧ (∀ j ∈ updateQuantity cart pid delta, 1 ≤ j.quantity ∨ j ∈ cart)
    ∧ updateQuantity
        [{ id := 7, name := "X", price := 0, image := "", category := "", quantity := 3 }]
        7 (-100)
      = [{ id := 7, name := "X", price := 0, image := "", category := "", quantity := 1 }] := by
  refine ⟨?_, ?_, ?_, ?_⟩
  · intro h
    have hne : ∀ i ∈ cart, i.id ≠ pid := by
      intro i hi
      have := List.all_eq_true.mp h i hi
      simpa using this
    exact map_guarded_noop cart pid _ hne
  · intro k
    have hfg : (fun j : CartItem => if j.id == pid then
          { j with quantity := max 1 (j.quantity + delta) } else j)
        = (fun i : CartItem => if i.id = pid then
          { i with quantity := max 1 (i.quantity + delta) } else i) := by
      funext i
      by_cases h : i.id = pid <;> simp [h]
    simp only [updateQuantity, hfg, List.getElem?_map]
  · intro j hj
    simp only [updateQuantity, List.mem_map] at hj
    obtain ⟨i, hi, rfl⟩ := hj
    by_cases h : (i.id == pid) = true
    · simp only [h, if_true]
      exact Or.inl (le_max_left 1 (i.quantity + delta))
    · simp only [h]
      simp only [Bool.not_eq_true] at h
      simp [h]
      exact Or.inr hi
  · decide

/-- Witness for C5: on a cart whose single line does not carry the id, the
update is a no-op. -/
theorem updateQuantity_spec_witness :
    updateQuantity [prod1.toCartItem 1] 7 (-5) = [prod1.toCartItem 1] :=
  (updateQuantity_spec [prod1.toCartItem 1] 7 (-5)).1 (by decide)

/-- Actions that reach a negative total: register a 150 percent coupon, apply
it, put one product in the cart. -/
def negTotalActs : List Action :=
  [Action.registerCoupon "big" 150, Action.setCouponInput "BIG",
   Action.applyCoupon, Action.addToCart prod1]

/-- C1, counterexample: the code performs no clamping, so a reachable state
(a registered coupon of 150 percent applied to a one-item cart) has a
negative cartTotal; the claimed clamped bound total >= 0 fails. -/
theorem pricing_total_negative_cex :
    cartTotal (run initState negTotalActs).cart (run initState negTotalActs).appliedCoupon
      < 0 := by
  show cartTotal [prod1.toCartItem 1]
      (some { code := "BIG", discount := 150, isActive := true }) < 0
  norm_num [cartTotal, subtotal, discountAmount, prod1, Product.toCartItem, List.foldl]

/-- C1, amended: subtotal is the sum of price times quantity over the cart,
discountAmount is subtotal * discount / 100 for an applied coupon and 0
without one, total = subtotal - discountAmount with no clamping performed,
and total is non-negative provided every line has non-negative price and
quantity and the applied discount lies between 0 and 100. -/
theorem pricing_engine_formulas (cart : List CartItem) (ac : Option Coupon)
    (hitems : ∀ i ∈ cart, 0 ≤ i.price ∧ 0 ≤ i.quantity)
    (hc : ∀ c, ac = some c → 0 ≤ c.discount ∧ c.discount ≤ 100) :
    subtotal cart = (cart.map (fun i => i.price * (i.quantity : Rat))).sum
    ∧ discountAmount cart none = 0
    ∧ (∀ c, ac = some c → discountAmount cart ac = subtotal cart * c.discount / 100)
    ∧ cartTotal cart ac = subtotal cart - discountAmount cart ac
    ∧ 0 ≤ cartTotal cart ac := by
  have hsub : 0 ≤ subtotal cart := by
    rw [subtotal_eq_sum]
    apply List.sum_nonneg
    intro x hx
    simp only [List.mem_map] at hx
    obtain ⟨i, hi, rfl⟩ := hx
    have h := hitems i hi
    exact mul_nonneg h.1 (by exact_mod_cast h.2)
  refine ⟨subtotal_eq_sum cart, rfl, ?_, rfl, ?_⟩
  · intro c hcc
    rw [hcc]
    rfl
  · cases ac with
    | none => simpa [cartTotal, discountAmount] using hsub
    | some c =>
      obtain ⟨h0, h100⟩ := hc c rfl
      have hle : subtotal cart * c.discount / 100 ≤ subtotal cart := by
        rw [div_le_iff₀ (by norm_num : (0:Rat) < 100)]
        calc subtotal cart * c.discount
            ≤ subtotal cart * 100 := mul_le_mul_of_nonneg_left h100 hsub
          _ = subtotal cart * 100 := rfl
      simp only [cartTotal, discountAmount]
      linarith

/-- Witness for C1 (amended) on a one-line cart with the 10 percent coupon. -/
theorem pricing_engine_formulas_witness :
    0 ≤ cartTotal [prod1.toCartItem 1]
        (some { code := "WELCOME10", discount := 10, isActive := true }) :=
  (pricing_engine_formulas [prod1.toCartItem 1]
      (some { code := "WELCOME10", discount := 10, isActive := true })
      (by decide)
      (by
        intro c h
        cases h
        exact ⟨by norm_num, by norm_num⟩)).2.2.2.2

/-- C6: handleApplyCoupon normalizes case-insensitively (upper-casing both the
stored code and the input) and succeeds exactly when some registered coupon
matches and is active; on success the applied coupon becomes a snapshot of the
matching coupon and the error is cleared, on failure only the error message is
set, leaving the cart and the applied coupon unchanged. -/
theorem handleApplyCoupon_spec (s : AppState) :
    ((∀ c ∈ s.coupons,
        ¬(toUpperCase c.code = toUpperCase s.couponInput ∧ c.isActive = true)) →
      handleApplyCoupon s = { s with couponError := "Invalid or inactive coupon code" })
    ∧ (∀ c, s.coupons.find?
          (fun c => toUpperCase c.code == toUpperCase s.couponInput && c.isActive) = some c →
        c ∈ s.coupons ∧ toUpperCase c.code = toUpperCase s.couponInput ∧ c.isActive = true
        ∧ handleApplyCoupon s =
            { s with appliedCoupon := some c, couponError := "", couponInput := "" })
    ∧ ((∃ c ∈ s.coupons, toUpperCase c.code = toUpperCase s.couponInput ∧ c.isActive = true)
        ↔ (handleApplyCoupon s).couponError = "") := by
  have hiffp : ∀ c : Coupon,
      ((toUpperCase c.code == toUpperCase s.couponInput && c.isActive) = true) ↔
        (toUpperCase c.code = toUpperCase s.couponInput ∧ c.isActive = true) := by
    intro c
    rw [Bool.and_eq_true, beq_iff_eq]
  rcases hfind : s.coupons.find?
      (fun c => toUpperCase c.code == toUpperCase s.couponInput && c.isActive) with _ | c0
  · have hnomatch : ∀ c ∈ s.coupons,
        ¬(toUpperCase c.code = toUpperCase s.couponInput ∧ c.isActive = true) := by
      intro c hc hcontra
      exact (List.find?_eq_none.mp hfind c hc) ((hiffp c).mpr hcontra)
    have hstate : handleApplyCoupon s =
        { s with couponError := "Invalid or inactive coupon code" } := by
      simp [handleApplyCoupon, hfind]
    refine ⟨fun _ => hstate, ?_, ?_⟩
    · intro c hc
      rw [hfind] at hc
      cases hc
    · constructor
      · rintro ⟨c, hc, hprops⟩
        exact absurd hprops (hnomatch c hc)
      · intro herr
        rw [hstate] at herr
        have hne : ("Invalid or inactive coupon code" : String) ≠ "" := by decide
        exact absurd herr hne
  · have hmem := List.mem_of_find?_eq_some hfind
    have hpc := (hiffp c0).mp
      (List.find?_some
        (p := fun c : Coupon =>
          toUpperCase c.code == toUpperCase s.couponInput && c.isActive) hfind)
    have hstate : handleApplyCoupon s =
        { s with appliedCoupon := some c0, couponError := "", couponInput := "" } := by
      simp [handleApplyCoupon, hfind]
    refine ⟨?_, ?_, ?_⟩
    · intro h
      exact absurd ⟨hpc.1, hpc.2⟩ (h c0 hmem)
    · intro c2 hc2
      rw [hfind] at hc2
      have hcc : c0 = c2 := Option.some.inj hc2
      subst hcc
      exact ⟨hmem, hpc.1, hpc.2, hstate⟩
    · constructor
      · intro _
        rw [hstate]
      · intro _
        exact ⟨c0, hmem, hpc.1, hpc.2⟩

/-- Witness for C6: applying the nonexistent code on the initial state sets
the error message and changes nothing else. -/
theorem handleApplyCoupon_spec_witness :
    handleApplyCoupon (setCouponInput initState "nonexistent")
      = { setCouponInput initState "nonexistent" with
          couponError := "Invalid or inactive coupon code" } :=
  (handleApplyCoupon_spec (setCouponInput initState "nonexistent")).1 (by decide)

/-- The actions that touch only the coupon subsystem: applying, removing,
registering, toggling, deleting a coupon, and typing into the coupon input. -/
def isCouponAction : Action → Bool
  | Action.applyCoupon => true
  | Action.removeCoupon => true
  | Action.registerCoupon _ _ => true
  | Action.toggleCouponStatus _ => true
  | Action.deleteCoupon _ => true
  | Action.setCouponInput _ => true
  | _ => false

/-- One coupon-subsystem step leaves the order ledger untouched. -/
lemma step_coupon_orders (s : AppState) (a : Action) (h : isCouponAction a = true) :
    (step s a).orders = s.orders := by
  cases a <;> try rfl
  case checkout oid date => simp [isCouponAction] at h
  case adminSetStatus oid st => simp [isCouponAction] at h
  case customerReturn oid => simp [isCouponAction] at h
  case applyCoupon =>
    simp only [step, handleApplyCoupon]
    split <;> rfl

/-- C2: after an order is placed, applying a coupon, removing the applied
coupon, or any later change to the coupon registry (register, toggle, delete,
and typing in the input field) leaves the order ledger, and hence every frozen
order total, unchanged. -/
theorem coupon_ops_preserve_orders (s : AppState) (acts : List Action)
    (h : ∀ a ∈ acts, isCouponAction a = true) :
    (run s acts).orders = s.orders
    ∧ (run s acts).orders.map (fun o => o.total) = s.orders.map (fun o => o.total) := by
  suffices hh : ∀ (l : List Action) (t : AppState),
      (∀ a ∈ l, isCouponAction a = true) → (run t l).orders = t.orders by
    exact ⟨hh acts s h, by rw [hh acts s h]⟩
  intro l
  induction l with
  | nil => intro t _; rfl
  | cons a rest ih =>
    intro t ht
    have h1 := ht a (List.mem_cons_self a rest)
    have h2 : ∀ b ∈ rest, isCouponAction b = true :=
      fun b hb => ht b (List.mem_cons_of_mem a hb)
    have hstep : run t (a :: rest) = run (step t a) rest := rfl
    rw [hstep, ih (step t a) h2, step_coupon_orders t a h1]

/-- An order already placed, used to witness the frame property. -/
def orderEx : Order :=
  { id := "ORD-A", date := "d1", items := [prod1.toCartItem 1], total := 12999,
    status := OrderStatus.Pending }

/-- A state holding one placed order. -/
def stateWithOrder : AppState :=
  { initState with orders := [orderEx] }

/-- Witness for C2: a burst of coupon activity after an order is placed leaves
the ledger as it was. -/
theorem coupon_ops_preserve_orders_witness :
    (run stateWithOrder
        [Action.removeCoupon, Action.registerCoupon "SAVE50" 50,
         Action.setCouponInput "save50", Action.applyCoupon,
         Action.deleteCoupon "WELCOME10"]).orders = stateWithOrder.orders :=
  (coupon_ops_preserve_orders stateWithOrder
      [Action.removeCoupon, Action.registerCoupon "SAVE50" 50,
       Action.setCouponInput "save50", Action.applyCoupon,
       Action.deleteCoupon "WELCOME10"] (by decide)).1

/-- In a ledger whose order ids are pairwise distinct, two members sharing an
id are the same order. -/
lemma mem_unique_of_pairwise_ids (l : List Order)
    (hids : l.Pairwise (fun a b => a.id ≠ b.id)) :
    ∀ a ∈ l, ∀ b ∈ l, a.id = b.id → a = b := by
  induction l with
  | nil =>
    intro a ha
    cases ha
  | cons x xs ih =>
    intro a ha b hb hab
    rcases List.mem_cons.mp ha with rfl | ha2
    · rcases List.mem_cons.mp hb with rfl | hb2
      · rfl
      · exact absurd hab ((List.pairwise_cons.mp hids).1 b hb2)
    · rcases List.mem_cons.mp hb with rfl | hb2
      · exact absurd hab.symm ((List.pairwise_cons.mp hids).1 a ha2)
      · exact ih (List.pairwise_cons.mp hids).2 a ha2 b hb2 hab

/-- C7, counterexample: the administrative status select calls the unguarded
updateOrderStatus, so a freshly placed order goes straight from Pending to
Returned without ever being Delivered. -/
theorem admin_return_from_pending_cex :
    ((run initState [Action.addToCart prod1, Action.checkout "ORD-A" "d1"]).orders.map
        (fun o => o.status) = [OrderStatus.Pending])
    ∧ ((run initState [Action.addToCart prod1, Action.checkout "ORD-A" "d1",
          Action.adminSetStatus "ORD-A" OrderStatus.Returned]).orders.map
        (fun o => o.status) = [OrderStatus.Returned]) :=
  ⟨rfl, rfl⟩

/-- C7, amended: only the customer-facing Return action is gated: when order
ids are pairwise distinct, an order whose status the customerReturn action
turns into Returned had status Delivered beforehand. The administrative
surface may override to any status, as the counterexample shows. -/
theorem customer_return_gated (s : AppState) (oid : String) (k : Nat)
    (hids : s.orders.Pairwise (fun a b => a.id ≠ b.id))
    (o o2 : Order)
    (ho : s.orders[k]? = some o)
    (ho2 : (customerReturn s oid).orders[k]? = some o2)
    (hret : o2.status = OrderStatus.Returned)
    (hnot : o.status ≠ OrderStatus.Returned) :
    o.status = OrderStatus.Delivered := by
  unfold customerReturn at ho2
  by_cases hg : (s.orders.any (fun order =>
      order.id == oid && decide (order.status = OrderStatus.Delivered))) = true
  · rw [if_pos hg] at ho2
    simp only [updateOrderStatus, List.getElem?_map, ho, Option.map_some,
      Option.map_some', Option.some.injEq] at ho2
    by_cases hid : (o.id == oid) = true
    · obtain ⟨o3, ho3mem, hp3⟩ := List.any_eq_true.mp hg
      rw [Bool.and_eq_true] at hp3
      have hid3 : o3.id = oid := by simpa using hp3.1
      have hst3 : o3.status = OrderStatus.Delivered := by simpa using hp3.2
      have hido : o.id = oid := by simpa using hid
      have homem : o ∈ s.orders := by
        obtain ⟨hk, hget⟩ := List.getElem?_eq_some.mp ho
        exact hget ▸ List.getElem_mem hk
      have heq3 : o = o3 :=
        mem_unique_of_pairwise_ids s.orders hids o homem o3 ho3mem (by rw [hido, hid3])
      rw [heq3]
      exact hst3
    · rw [if_neg hid] at ho2
      rw [← ho2] at hret
      exact absurd hret hnot
  · rw [if_neg hg] at ho2
    rw [ho] at ho2
    have heq := Option.some.inj ho2
    rw [← heq] at hret
    exact absurd hret hnot

/-- A delivered order, used to witness the gated customer return. -/
def orderDelivered : Order :=
  { id := "ORD-A", date := "d1", items := [], total := 0,
    status := OrderStatus.Delivered }

/-- A state holding one delivered order. -/
def stateDelivered : AppState :=
  { initState with orders := [orderDelivered] }

/-- Witness for C7 (amended): the customer Return action on a delivered order
satisfies the gate. -/
theorem customer_return_gated_witness :
    orderDelivered.status = OrderStatus.Delivered :=
  customer_return_gated stateDelivered "ORD-A" 0
    (List.Pairwise.cons (fun b hb => absurd hb (List.not_mem_nil b)) List.Pairwise.nil)
    orderDelivered { orderDelivered with status := OrderStatus.Returned }
    rfl rfl rfl (by decide)

/-- C9, counterexample: handleAddCoupon performs no duplicate check, so
registering welcome10 next to the initial WELCOME10 leaves two coupons with
the same normalized code in the registry. -/
theorem duplicate_code_cex :
    ((run initState [Action.registerCoupon "welcome10" 20]).coupons.map
        (fun c => toUpperCase c.code) = ["WELCOME10", "WELCOME10"])
    ∧ ¬ ((run initState [Action.registerCoupon "welcome10" 20]).coupons.Pairwise
        (fun a b => toUpperCase a.code ≠ toUpperCase b.code)) := by
  constructor
  · rfl
  · intro hp
    have hcoup : (run initState [Action.registerCoupon "welcome10" 20]).coupons
        = [{ code := "WELCOME10", discount := 10, isActive := true },
           { code := "WELCOME10", discount := 20, isActive := true }] := rfl
    rw [hcoup] at hp
    have h12 := (List.pairwise_cons.mp hp).1
    exact absurd rfl
      (h12 { code := "WELCOME10", discount := 20, isActive := true }
        (List.mem_singleton.mpr rfl))

/-- C9, amended: register normalizes the code to upper case before storage and
always appends (active := true); uniqueness of normalized codes is not
enforced, so a duplicate normalized code can enter the registry. -/
theorem register_normalizes_appends (s : AppState) (code : String) (d : Rat) :
    (handleAddCoupon s code d).coupons
      = s.coupons ++ [{ code := toUpperCase code, discount := d, isActive := true }]
    ∧ (handleAddCoupon s code d).coupons.length = s.coupons.length + 1 := by
  constructor
  · rfl
  · simp [handleAddCoupon]

/-- The second catalog product, used in the concrete pricing scenario. -/
def prod2 : Product :=
  { id := 2, name := "Minimalist Leather Watch", price := 4500,
    image := "https://picsum.photos/seed/watch/400/400", category := "Accessories" }

/-- The actions of the concrete scenario: one headphones, two watches, apply
the 10 percent coupon. -/
def scenarioActs : List Action :=
  [Action.addToCart prod1, Action.addToCart prod2, Action.addToCart prod2,
   Action.setCouponInput "WELCOME10", Action.applyCoupon]

/-- C8, counterexample: on the scenario cart the code does not round: the
discount is 2199.9 (not 2200) and the total is 19799.1 (not 19799). -/
theorem concrete_scenario_rounding_cex :
    discountAmount (run initState scenarioActs).cart
        (run initState scenarioActs).appliedCoupon ≠ 2200
    ∧ cartTotal (run initState scenarioActs).cart
        (run initState scenarioActs).appliedCoupon ≠ 19799 := by
  have hcart : (run initState scenarioActs).cart
      = [prod1.toCartItem 1, prod2.toCartItem 2] := rfl
  have hac : (run initState scenarioActs).appliedCoupon
      = some { code := "WELCOME10", discount := 10, isActive := true } := rfl
  constructor
  · rw [hcart, hac]
    norm_num [discountAmount, subtotal, List.foldl, prod1, prod2, Product.toCartItem]
  · rw [hcart, hac]
    norm_num [cartTotal, discountAmount, subtotal, List.foldl, prod1, prod2,
      Product.toCartItem]

/-- checkout on a non-empty cart, written out: prepend the frozen order, bump
the counters, clear the cart. -/
lemma checkout_nonempty (s : AppState) (oid date : String) (h : ¬ s.cart.length = 0) :
    checkout s oid date =
      { s with
        orders := { id := oid, date := date, items := s.cart,
                    total := cartTotal s.cart s.appliedCoupon,
                    status := OrderStatus.Pending } :: s.orders
        revenue := s.revenue + cartTotal s.cart s.appliedCoupon
        totalOrders := s.totalOrders + 1
        cart := [] } := by
  unfold checkout
  rw [if_neg h]

/-- C8, amended: on the scenario cart the subtotal is 21999, the discount is
exactly 21999/10 = 2199.9 with no rounding, the total is 197991/10 = 19799.1,
and checkout produces exactly one new order with that total and status
Pending while the cart becomes empty. -/
theorem concrete_scenario_no_rounding :
    subtotal (run initState scenarioActs).cart = 21999
    ∧ discountAmount (run initState scenarioActs).cart
        (run initState scenarioActs).appliedCoupon = 21999 / 10
    ∧ cartTotal (run initState scenarioActs).cart
        (run initState scenarioActs).appliedCoupon = 197991 / 10
    ∧ (checkout (run initState scenarioActs) "ORD-B" "d2").orders
        = [{ id := "ORD-B", date := "d2", items := (run initState scenarioActs).cart,
             total := 197991 / 10, status := OrderStatus.Pending }]
    ∧ (checkout (run initState scenarioActs) "ORD-B" "d2").cart = [] := by
  have hcart : (run initState scenarioActs).cart
      = [prod1.toCartItem 1, prod2.toCartItem 2] := rfl
  have hac : (run initState scenarioActs).appliedCoupon
      = some { code := "WELCOME10", discount := 10, isActive := true } := rfl
  have hsub : subtotal (run initState scenarioActs).cart = 21999 := by
    rw [hcart]
    norm_num [subtotal, List.foldl, prod1, prod2, Product.toCartItem]
  have hdisc : discountAmount (run initState scenarioActs).cart
      (run initState scenarioActs).appliedCoupon = 21999 / 10 := by
    rw [hac]
    show subtotal (run initState scenarioActs).cart * 10 / 100 = 21999 / 10
    rw [hsub]
    norm_num
  have htot : cartTotal (run initState scenarioActs).cart
      (run initState scenarioActs).appliedCoupon = 197991 / 10 := by
    show subtotal (run initState scenarioActs).cart
        - discountAmount (run initState scenarioActs).cart
            (run initState scenarioActs).appliedCoupon = 197991 / 10
    rw [hsub, hdisc]
    norm_num
  have hlen : ¬ (run initState scenarioActs).cart.length = 0 := by
    rw [hcart]
    norm_num
  have hno : (run initState scenarioActs).orders = [] := rfl
  refine ⟨hsub, hdisc, htot, ?_, ?_⟩
  · simp only [checkout_nonempty (run initState scenarioActs) "ORD-B" "d2" hlen, hno, htot]
  · simp only [checkout_nonempty (run initState scenarioActs) "ORD-B" "d2" hlen]

/-- Sum bookkeeping: the total of every order survives a status rewrite. -/
lemma map_total_update (orders : List Order) (oid : String) (st : OrderStatus) :
    (orders.map (fun o => if o.id == oid then { o with status := st } else o)).map
        (fun o => o.total)
      = orders.map (fun o => o.total) := by
  rw [List.map_map]
  apply List.map_congr_left
  intro o _
  by_cases h : (o.id == oid) = true <;> simp [Function.comp, h]

/-- The sum of the frozen totals in the ledger. -/
def ordersTotal (s : AppState) : Rat :=
  (s.orders.map (fun o => o.total)).sum

/-- The revenue and totalOrders counters agree with the ledger. -/
def CountersInv (s : AppState) : Prop :=
  s.revenue = ordersTotal s ∧ s.totalOrders = s.orders.length

/-- updateOrderStatus preserves the counter invariant. -/
lemma counters_updateOrderStatus (s : AppState) (oid : String) (st : OrderStatus)
    (h : CountersInv s) : CountersInv (updateOrderStatus s oid st) := by
  obtain ⟨h1, h2⟩ := h
  constructor
  · show s.revenue = ordersTotal (updateOrderStatus s oid st)
    show s.revenue = ((s.orders.map (fun o =>
        if o.id == oid then { o with status := st } else o)).map (fun o => o.total)).sum
    rw [map_total_update]
    exact h1
  · show s.totalOrders = (s.orders.map (fun o =>
        if o.id == oid then { o with status := st } else o)).length
    rw [List.length_map]
    exact h2

/-- Every action preserves the counter invariant. -/
lemma step_counters (s : AppState) (a : Action) (h : CountersInv s) :
    CountersInv (step s a) := by
  obtain ⟨h1, h2⟩ := h
  cases a with
  | addToCart p => exact ⟨h1, h2⟩
  | removeFromCart pid => exact ⟨h1, h2⟩
  | updateQuantity pid delta => exact ⟨h1, h2⟩
  | checkout oid date =>
    show CountersInv (checkout s oid date)
    unfold checkout
    by_cases hc : s.cart.length = 0
    · rw [if_pos hc]
      exact ⟨h1, h2⟩
    · rw [if_neg hc]
      constructor
      · show s.revenue + cartTotal s.cart s.appliedCoupon
          = (cartTotal s.cart s.appliedCoupon :: s.orders.map (fun o => o.total)).sum
        rw [List.sum_cons, h1]
        exact add_comm _ _
      · show s.totalOrders + 1 = s.orders.length + 1
        rw [h2]
  | adminSetStatus oid st => exact counters_updateOrderStatus s oid st ⟨h1, h2⟩
  | customerReturn oid =>
    show CountersInv (customerReturn s oid)
    unfold customerReturn
    split
    · exact counters_updateOrderStatus s oid OrderStatus.Returned ⟨h1, h2⟩
    · exact ⟨h1, h2⟩
  | setCouponInput input => exact ⟨h1, h2⟩
  | applyCoupon =>
    show CountersInv (handleApplyCoupon s)
    unfold handleApplyCoupon
    split <;> exact ⟨h1, h2⟩
  | removeCoupon => exact ⟨h1, h2⟩
  | registerCoupon code d => exact ⟨h1, h2⟩
  | toggleCouponStatus code => exact ⟨h1, h2⟩
  | deleteCoupon code => exact ⟨h1, h2⟩
  | toggleWishlist pid => exact ⟨h1, h2⟩
  | addProduct p => exact ⟨h1, h2⟩
  | deleteProduct pid => exact ⟨h1, h2⟩

/-- Running any action list preserves the counter invariant. -/
lemma run_counters (acts : List Action) :
    ∀ s : AppState, CountersInv s → CountersInv (run s acts) := by
  induction acts with
  | nil => intro s h; exact h
  | cons a rest ih => intro s h; exact ih (step s a) (step_counters s a h)

/-- C10: checkout on a non-empty cart raises revenue by exactly the frozen
total of the new order and totalOrders by exactly 1; every other action
(status changes included) leaves both counters alone; consequently, in every
state reachable from the initial one, revenue is the sum of the frozen totals
of all placed orders and totalOrders is their count. -/
theorem revenue_counters_spec :
    (∀ (s : AppState) (oid date : String), s.cart ≠ [] →
      (checkout s oid date).revenue = s.revenue + cartTotal s.cart s.appliedCoupon
      ∧ (checkout s oid date).totalOrders = s.totalOrders + 1
      ∧ (checkout s oid date).orders.map (fun o => o.total)
          = cartTotal s.cart s.appliedCoupon :: s.orders.map (fun o => o.total))
    ∧ (∀ (s : AppState) (a : Action), (∀ oid date, a ≠ Action.checkout oid date) →
      (step s a).revenue = s.revenue ∧ (step s a).totalOrders = s.totalOrders)
    ∧ (∀ acts : List Action,
      (run initState acts).revenue
          = ((run initState acts).orders.map (fun o => o.total)).sum
      ∧ (run initState acts).totalOrders = (run initState acts).orders.length) := by
  refine ⟨?_, ?_, ?_⟩
  · intro s oid date hne
    have hc : ¬ s.cart.length = 0 := by
      intro h0
      exact hne (List.length_eq_zero.mp h0)
    unfold checkout
    rw [if_neg hc]
    exact ⟨rfl, rfl, rfl⟩
  · intro s a ha
    cases a with
    | checkout oid date => exact absurd rfl (ha oid date)
    | applyCoupon =>
      show (handleApplyCoupon s).revenue = s.revenue
        ∧ (handleApplyCoupon s).totalOrders = s.totalOrders
      unfold handleApplyCoupon
      split <;> exact ⟨rfl, rfl⟩
    | customerReturn oid =>
      show (customerReturn s oid).revenue = s.revenue
        ∧ (customerReturn s oid).totalOrders = s.totalOrders
      unfold customerReturn
      split <;> exact ⟨rfl, rfl⟩
    | _ => exact ⟨rfl, rfl⟩
  · intro acts
    exact run_counters acts initState ⟨rfl, rfl⟩

/-- Witness for C10: a concrete checkout bumps revenue by the cart total, and
removing a coupon leaves revenue alone. -/
theorem revenue_counters_spec_witness :
    (checkout { initState with cart := [prod1.toCartItem 1] } "ORD-C" "d3").revenue
        = ({ initState with cart := [prod1.toCartItem 1] } : AppState).revenue
          + cartTotal [prod1.toCartItem 1] none
    ∧ (step initState Action.removeCoupon).revenue = initState.revenue :=
  ⟨(revenue_counters_spec.1 { initState with cart := [prod1.toCartItem 1] }
      "ORD-C" "d3" (by decide)).1,
   (revenue_counters_spec.2.1 initState Action.removeCoupon
      (fun _ _ h => Action.noConfusion h)).1⟩

end SwiftCart
